import Mathlib

/-
  Verification of the session lifecycle and media-pipeline coordinator of the
  gaming-assistant demo.  The embedding follows two sources:

  * src/src/components/LiveAPIDemo.jsx — the React component that owns the
    GeminiLiveAPI client, the media producer handles (AudioStreamer /
    ScreenCapture) and the AudioPlayer, and wires the lifecycle callbacks.
  * src/DEBUGGING_PLAN.md — the connection-stability plan whose code blocks
    give the GeminiLiveAPI handshake handler (section 2.1), the connection
    state field (section 2.2) and the auto-reconnect close handler
    (section 4.1), plus the App.jsx shell.

  Handlers are embedded as pure functions from a state to a pair of the new
  state and the list of externally visible actions (alerts, parent callbacks,
  calls into the client or into a media handle), in the order the JS code
  performs them.
-/

namespace GamingAssistant

/-- Inbound message tags, the values of MultimodalLiveResponseType as matched
by handleGeminiResponse in LiveAPIDemo.jsx. -/
inductive MsgType where
  | audioChunk
  | textMsg
  | setupComplete
  | turnComplete
  | interrupted
  | inputTranscription
  | outputTranscription
  | toolCall
  | errorMsg
  | unknown
  deriving DecidableEq

/-- Connection states from DEBUGGING_PLAN section 2.2: this.connectionState
takes the values disconnected, connecting, connected, disconnecting, error. -/
inductive ConnState where
  | disconnected
  | connecting
  | connected
  | disconnecting
  | error
  deriving DecidableEq

/-- State of the GeminiLiveAPI client, from the constructor fields in the
DEBUGGING_PLAN snippets: connected (section 2.1), autoReconnect,
reconnectAttempts, maxReconnectAttempts, reconnectDelay (section 4.1),
connectionState (section 2.2); projectId is the field read by
LiveAPIDemo.connect and written by setProjectId. -/
structure GeminiLiveAPI where
  projectId : String
  connected : Bool
  autoReconnect : Bool
  reconnectAttempts : Nat
  maxReconnectAttempts : Nat
  reconnectDelay : Nat
  connectionState : ConnState
  deriving DecidableEq

/-- The client as constructed: connected is false, autoReconnect true,
reconnectAttempts 0, maxReconnectAttempts 5, reconnectDelay 1000 ms
(DEBUGGING_PLAN section 4.1 constructor), connectionState disconnected
(section 2.2); the component constructs it with config.projectId, initially
the empty string. -/
def initialApi : GeminiLiveAPI :=
  { projectId := ""
    connected := false
    autoReconnect := true
    reconnectAttempts := 0
    maxReconnectAttempts := 5
    reconnectDelay := 1000
    connectionState := ConnState.disconnected }

/-- Transport-level events delivered to the GeminiLiveAPI handlers. -/
inductive TransportEvent where
  | openEvt
  | message (t : MsgType)
  | closeEvt
  deriving DecidableEq

/-- Externally visible effects of the GeminiLiveAPI handlers. -/
inductive ApiOutput where
  | sendSetup
  | connectionStarted
  | closeCallback
  | scheduleReconnect (delayMs : Nat)
  | receiveResponse (t : MsgType)
  deriving DecidableEq

/-- One step of the GeminiLiveAPI event handlers, from the DEBUGGING_PLAN
code blocks.  onopen (section 2.1) does not set connected; it only sends the
initial setup messages.  onReceiveMessage (sections 2.1 and 4.1) sets
connected and resets reconnectAttempts exactly on SETUP_COMPLETE, firing
onConnectionStarted, then forwards every message to onReceiveResponse.
onclose (section 4.1) clears connected, fires onClose, and when autoReconnect
holds and reconnectAttempts is below maxReconnectAttempts it increments the
counter and schedules a connect retry after
reconnectDelay * 2 ^ (reconnectAttempts - 1) ms, the exponent taken after the
increment. -/
def apiStep (s : GeminiLiveAPI) : TransportEvent → GeminiLiveAPI × List ApiOutput
  | TransportEvent.openEvt => (s, [ApiOutput.sendSetup])
  | TransportEvent.message t =>
      if t = MsgType.setupComplete then
        ({ s with connected := true, reconnectAttempts := 0 },
         [ApiOutput.connectionStarted, ApiOutput.receiveResponse t])
      else
        (s, [ApiOutput.receiveResponse t])
  | TransportEvent.closeEvt =>
      let s1 : GeminiLiveAPI := { s with connected := false }
      if s1.autoReconnect = true ∧ s1.reconnectAttempts < s1.maxReconnectAttempts then
        let s2 : GeminiLiveAPI := { s1 with reconnectAttempts := s1.reconnectAttempts + 1 }
        (s2, [ApiOutput.closeCallback,
              ApiOutput.scheduleReconnect (s2.reconnectDelay * 2 ^ (s2.reconnectAttempts - 1))])
      else
        (s1, [ApiOutput.closeCallback])

/-- Folding apiStep over a list of transport events. -/
def runApi (s : GeminiLiveAPI) : List TransportEvent → GeminiLiveAPI
  | [] => s
  | e :: es => runApi (apiStep s e).1 es

/-- Modelled from the spec: GeminiLiveAPI.connect itself is not among the
sources (only its close and receive handlers appear in the DEBUGGING_PLAN
blocks); per spec section 4.1 an explicit connect resets the reconnect
attempt counter and moves the session to connecting. -/
def apiConnect (s : GeminiLiveAPI) : GeminiLiveAPI :=
  { s with reconnectAttempts := 0, connectionState := ConnState.connecting }

/-- A media producer handle (AudioStreamer or ScreenCapture instance):
its own isStreaming flag and whether its capture device is still held. -/
structure MediaHandle where
  isStreaming : Bool
  deviceActive : Bool
  deriving DecidableEq

/-- Modelled from the spec: AudioStreamer.stop and ScreenCapture.stop live in
media-utils.js, which is not among the sources; per spec section 4.2, stop
releases the capture device deterministically and is idempotent. -/
def MediaHandle.stop (h : MediaHandle) : MediaHandle :=
  { h with isStreaming := false, deviceActive := false }

/-- The AudioPlayer (Playback Consumer) handle held in audioPlayerRef. -/
structure AudioPlayer where
  destroyed : Bool
  deriving DecidableEq

/-- The configuration state of LiveAPIDemo. -/
structure Config where
  proxyUrl : String
  projectId : String
  model : String
  systemInstructions : String
  voice : String
  deriving DecidableEq

/-- The useState initial configuration of LiveAPIDemo. -/
def defaultConfig : Config :=
  { proxyUrl := "ws://localhost:8080"
    projectId := ""
    model := "gemini-2.0-flash-exp"
    systemInstructions := "You are a helpful gaming assistant."
    voice := "Puck" }

/-- A partial configuration object passed to setConfig; a field that the JS
object does not carry is none. -/
structure ConfigUpdate where
  proxyUrl : Option String := none
  projectId : Option String := none
  model : Option String := none
  systemInstructions : Option String := none
  voice : Option String := none
  deriving DecidableEq

/-- The object-spread merge setConfig performs on the component state:
fields present in the update replace the previous value, absent fields keep
it. -/
def mergeConfig (prev : Config) (nc : ConfigUpdate) : Config :=
  { proxyUrl := nc.proxyUrl.getD prev.proxyUrl
    projectId := nc.projectId.getD prev.projectId
    model := nc.model.getD prev.model
    systemInstructions := nc.systemInstructions.getD prev.systemInstructions
    voice := nc.voice.getD prev.voice }

/-- The state LiveAPIDemo keeps across renders: the config state, the four
refs (client, audio streamer, screen capture, audio player) and the three
boolean flags. -/
structure DemoState where
  config : Config
  client : Option GeminiLiveAPI
  audioStreamer : Option MediaHandle
  screenCapture : Option MediaHandle
  audioPlayer : Option AudioPlayer
  isConnected : Bool
  isAudioStreaming : Bool
  isScreenSharing : Bool
  deriving DecidableEq

/-- Externally visible actions of the component handlers: alerts, the parent
callbacks, and the calls made into the client or into a media handle. -/
inductive UIAction where
  | alert (msg : String)
  | connectionChange (now : Bool)
  | audioStreamChange (now : Bool)
  | screenShareChange (now : Bool)
  | previewStreamChange (present : Bool)
  | clientConnect
  | clientDisconnect
  | deviceRequest
  | handleStop
  | setProjectIdCall (p : String)
  | setSystemInstructionsCall (v : String)
  | setVoiceCall (v : String)
  | playerDestroy
  deriving DecidableEq

/-- Result of the client.onClose callback: the new component state, the
emitted actions, and the final value of each media handle object that the
handler saw (the handler drops its refs, so the post-handler handles are
reported separately). -/
structure CloseResult where
  state : DemoState
  actions : List UIAction
  audioHandleAfter : Option MediaHandle
  screenHandleAfter : Option MediaHandle
  deriving DecidableEq

/-- The client.onClose callback of LiveAPIDemo: clears isConnected and
reports it, then — deliberately ignoring the possibly stale isAudioStreaming
and isScreenSharing flags — checks each ref itself; for a present audio ref
it calls stop, nulls the ref, clears the flag and reports it, and likewise
for a present screen ref, additionally clearing the preview stream. -/
def clientOnClose (s : DemoState) : CloseResult :=
  let audioActs : List UIAction :=
    if s.audioStreamer.isSome then
      [UIAction.handleStop, UIAction.audioStreamChange false]
    else []
  let screenActs : List UIAction :=
    if s.screenCapture.isSome then
      [UIAction.handleStop, UIAction.screenShareChange false,
       UIAction.previewStreamChange false]
    else []
  { state :=
      { s with
        isConnected := false
        audioStreamer := none
        isAudioStreaming := if s.audioStreamer.isSome then false else s.isAudioStreaming
        screenCapture := none
        isScreenSharing := if s.screenCapture.isSome then false else s.isScreenSharing }
    actions := UIAction.connectionChange false :: (audioActs ++ screenActs)
    audioHandleAfter := s.audioStreamer.map MediaHandle.stop
    screenHandleAfter := s.screenCapture.map MediaHandle.stop }

/-- The client.onErrorMessage callback of LiveAPIDemo: alerts with the error
text, clears isConnected and reports it.  It does not touch the media refs. -/
def clientOnErrorMessage (s : DemoState) (msg : String) : DemoState × List UIAction :=
  ({ s with isConnected := false },
   [UIAction.alert ("Connection Error: " ++ msg), UIAction.connectionChange false])

/-- The useEffect cleanup of LiveAPIDemo, run on unmount: disconnect when the
client reports connected, stop each media handle whose own isStreaming flag
is set, and destroy the audio player when its ref is present. -/
def unmountCleanup (s : DemoState) : List UIAction :=
  (if (s.client.map GeminiLiveAPI.connected).getD false then
      [UIAction.clientDisconnect] else []) ++
  (if (s.audioStreamer.map MediaHandle.isStreaming).getD false then
      [UIAction.handleStop] else []) ++
  (if (s.screenCapture.map MediaHandle.isStreaming).getD false then
      [UIAction.handleStop] else []) ++
  (if s.audioPlayer.isSome then [UIAction.playerDestroy] else [])

/-- The connect method exposed through useImperativeHandle: bails out when no
client exists; alerts and returns, with no state change and no transport
action, when the client projectId is falsy (the empty string); otherwise
calls client.connect. -/
def connectOp (s : DemoState) : DemoState × List UIAction :=
  match s.client with
  | none => (s, [])
  | some c =>
      if c.projectId.isEmpty then
        (s, [UIAction.alert
          ("Please enter your Google Cloud Project ID in the configuration dropdown")])
      else
        (s, [UIAction.clientConnect])

/-- The disconnect method: no-op without a client, otherwise
client.disconnect. -/
def disconnectOp (s : DemoState) : DemoState × List UIAction :=
  match s.client with
  | none => (s, [])
  | some _ => (s, [UIAction.clientDisconnect])

/-- The optional-chained geminiClientRef.current?.connected check. -/
def clientConnected (s : DemoState) : Bool :=
  (s.client.map GeminiLiveAPI.connected).getD false

/-- Outcome of awaiting a media producer start: the environment grants a
device (yielding the handle), denies permission (NotAllowedError), or fails
otherwise. -/
inductive StartOutcome where
  | granted (h : MediaHandle)
  | permissionDenied
  | failed (msg : String)
  deriving DecidableEq

/-- The toggleAudio method: rejected with an alert while the client is not
connected; when streaming, stops and drops the handle and reports off; when
not streaming, requests the device and either installs the granted handle
and reports on, or alerts on the failure and reports off. -/
def toggleAudioOp (s : DemoState) (outcome : StartOutcome) : DemoState × List UIAction :=
  if clientConnected s = false then
    (s, [UIAction.alert ("Please connect to the API first")])
  else if s.isAudioStreaming then
    ({ s with audioStreamer := none, isAudioStreaming := false },
     (if s.audioStreamer.isSome then [UIAction.handleStop] else []) ++
       [UIAction.audioStreamChange false])
  else
    match outcome with
    | StartOutcome.granted h =>
        ({ s with audioStreamer := some h, isAudioStreaming := true },
         [UIAction.deviceRequest, UIAction.audioStreamChange true])
    | StartOutcome.permissionDenied =>
        ({ s with isAudioStreaming := false },
         [UIAction.deviceRequest,
          UIAction.alert
            ("Microphone permission denied. Please allow microphone access and try again."),
          UIAction.audioStreamChange false])
    | StartOutcome.failed m =>
        ({ s with isAudioStreaming := false },
         [UIAction.deviceRequest,
          UIAction.alert ("Failed to start microphone: " ++ m),
          UIAction.audioStreamChange false])

/-- The toggleScreen method: rejected with an alert while the client is not
connected; when sharing, stops and drops the handle, reports off and clears
the preview; when not sharing, requests display capture and either installs
the granted handle, reports on and publishes the preview stream, or alerts
on the failure and reports off. -/
def toggleScreenOp (s : DemoState) (outcome : StartOutcome) : DemoState × List UIAction :=
  if clientConnected s = false then
    (s, [UIAction.alert ("Please connect to the API first")])
  else if s.isScreenSharing then
    ({ s with screenCapture := none, isScreenSharing := false },
     (if s.screenCapture.isSome then [UIAction.handleStop] else []) ++
       [UIAction.screenShareChange false, UIAction.previewStreamChange false])
  else
    match outcome with
    | StartOutcome.granted h =>
        ({ s with screenCapture := some h, isScreenSharing := true },
         [UIAction.deviceRequest, UIAction.screenShareChange true,
          UIAction.previewStreamChange true])
    | StartOutcome.permissionDenied =>
        ({ s with isScreenSharing := false },
         [UIAction.deviceRequest,
          UIAction.alert ("Screen share permission denied."),
          UIAction.screenShareChange false])
    | StartOutcome.failed m =>
        ({ s with isScreenSharing := false },
         [UIAction.deviceRequest,
          UIAction.alert ("Failed to start screen share: " ++ m),
          UIAction.screenShareChange false])

/-- Result of the onended handler of the screen video track: new state,
emitted actions, and the screen capture object as the handler left it. -/
structure EndedResult where
  state : DemoState
  actions : List UIAction
  screenHandleAfter : Option MediaHandle
  deriving DecidableEq

/-- The onended handler installed on the screen video track in toggleScreen:
when the browser ends the track it clears the sharing flag, reports off,
clears the preview and nulls the ref.  It does not call stop on the
ScreenCapture object, so the handle object itself is left as it was. -/
def screenTrackOnEnded (s : DemoState) : EndedResult :=
  { state := { s with isScreenSharing := false, screenCapture := none }
    actions := [UIAction.screenShareChange false, UIAction.previewStreamChange false]
    screenHandleAfter := s.screenCapture }

/-- The JS truthiness test the setConfig forwarding guards perform on an
optional string field: present and non-empty. -/
def truthyStr : Option String → Bool
  | none => false
  | some s => !s.isEmpty

/-- The setConfig method: spread-merges the update into the config state,
then, when a client exists, forwards each of projectId, systemInstructions
and voice to the client if and only if the supplied value is truthy.  Only
setProjectId mutates modelled client state; there is no connection-state
check anywhere in this method. -/
def setConfigOp (s : DemoState) (nc : ConfigUpdate) : DemoState × List UIAction :=
  let cfg := mergeConfig s.config nc
  match s.client with
  | none => ({ s with config := cfg }, [])
  | some c =>
      let c1 : GeminiLiveAPI :=
        if truthyStr nc.projectId then { c with projectId := nc.projectId.getD c.projectId }
        else c
      let a1 : List UIAction :=
        if truthyStr nc.projectId then [UIAction.setProjectIdCall (nc.projectId.getD (""))]
        else []
      let a2 : List UIAction :=
        if truthyStr nc.systemInstructions then
          [UIAction.setSystemInstructionsCall (nc.systemInstructions.getD (""))]
        else []
      let a3 : List UIAction :=
        if truthyStr nc.voice then [UIAction.setVoiceCall (nc.voice.getD (""))]
        else []
      ({ s with config := cfg, client := some c1 }, a1 ++ a2 ++ a3)

/-- Lifecycle events delivered to the component by the client. -/
inductive LifeEvent where
  | closedEvt
  | errorEvt (msg : String)
  deriving DecidableEq

/-- Dispatch of one lifecycle event to the matching component callback. -/
def lifeStep (s : DemoState) : LifeEvent → DemoState × List UIAction
  | LifeEvent.closedEvt => ((clientOnClose s).state, (clientOnClose s).actions)
  | LifeEvent.errorEvt m => clientOnErrorMessage s m

/-- Folding lifeStep over a list of lifecycle events, collecting actions. -/
def runLife (s : DemoState) : List LifeEvent → DemoState × List UIAction
  | [] => (s, [])
  | e :: es =>
      ((runLife (lifeStep s e).1 es).1,
       (lifeStep s e).2 ++ (runLife (lifeStep s e).1 es).2)

/-
  Concrete fixtures used by witnesses and counterexamples.
-/

/-- A media handle that is streaming and still holds its capture device. -/
def activeHandle : MediaHandle :=
  { isStreaming := true, deviceActive := true }

/-- The connected client, as after a completed handshake. -/
def liveClient : GeminiLiveAPI :=
  { initialApi with connected := true, connectionState := ConnState.connected }

/-- A demo state whose two producers are live while both cached streaming
flags are stale (false): the configuration this repository guards against,
since the onClose closure captures old state. -/
def staleFlagsState : DemoState :=
  { config := defaultConfig
    client := some liveClient
    audioStreamer := some activeHandle
    screenCapture := some activeHandle
    audioPlayer := some { destroyed := false }
    isConnected := true
    isAudioStreaming := false
    isScreenSharing := false }

/-- The client after five involuntary closures with no successful setup in
between, with the connection-state field still reading connected. -/
def exhaustedApi : GeminiLiveAPI :=
  { liveClient with reconnectAttempts := 5 }

/-- A freshly mounted demo: client constructed with the empty projectId,
nothing streaming. -/
def freshState : DemoState :=
  { config := defaultConfig
    client := some initialApi
    audioStreamer := none
    screenCapture := none
    audioPlayer := some { destroyed := false }
    isConnected := false
    isAudioStreaming := false
    isScreenSharing := false }

/-- A connected demo in which only screen sharing is active. -/
def sharingState : DemoState :=
  { freshState with
    client := some liveClient
    screenCapture := some activeHandle
    isConnected := true
    isScreenSharing := true }

/-- A connected demo whose client already holds a project identifier. -/
def connectedState : DemoState :=
  { freshState with
    config := { defaultConfig with projectId := "old-project" }
    client := some { liveClient with projectId := "old-project" }
    isConnected := true }

/-
  Helper lemmas.
-/

/-- Any transport event other than a SETUP_COMPLETE message leaves an
unconnected client unconnected. -/
theorem apiStep_preserves_unconnected (s : GeminiLiveAPI) (e : TransportEvent)
    (hs : s.connected = false)
    (he : e ≠ TransportEvent.message MsgType.setupComplete) :
    (apiStep s e).1.connected = false := by
  cases e with
  | openEvt => simpa [apiStep] using hs
  | message t =>
      have ht : t ≠ MsgType.setupComplete := by
        intro h
        exact he (by rw [h])
      simp [apiStep, ht, hs]
  | closeEvt =>
      simp only [apiStep]
      split <;> rfl

/-
  Claims.
-/

/-- C1: a transport-open event never transitions the session to connected —
over any sequence of opens and inbound frames with no SETUP_COMPLETE, an
unconnected client stays unconnected — and the step that processes
SETUP_COMPLETE emits the connection-started report exactly once, with the
reconnect-attempt counter equal to 0. -/
theorem c1_connected_only_after_setup_complete :
    (∀ (s : GeminiLiveAPI) (evs : List TransportEvent),
        s.connected = false →
        (∀ e ∈ evs, e ≠ TransportEvent.message MsgType.setupComplete) →
        (runApi s evs).connected = false)
    ∧ (∀ s : GeminiLiveAPI,
        (apiStep s (TransportEvent.message MsgType.setupComplete)).2 =
          [ApiOutput.connectionStarted, ApiOutput.receiveResponse MsgType.setupComplete]
        ∧ ((apiStep s (TransportEvent.message MsgType.setupComplete)).2.count
            ApiOutput.connectionStarted = 1)
        ∧ (apiStep s (TransportEvent.message MsgType.setupComplete)).1.connected = true
        ∧ (apiStep s (TransportEvent.message MsgType.setupComplete)).1.reconnectAttempts = 0) := by
  constructor
  · intro s evs
    induction evs generalizing s with
    | nil =>
        intro hs _
        simpa [runApi] using hs
    | cons e es ih =>
        intro hs hall
        simp only [runApi]
        exact ih _ (apiStep_preserves_unconnected s e hs (hall e (by simp)))
          (fun x hx => hall x (by simp [hx]))
  · intro s
    exact ⟨rfl, rfl, rfl, rfl⟩

/-- Witness for C1 at concrete inputs: a run consisting of a transport open
followed by text and audio frames leaves the fresh client unconnected, and
the SETUP_COMPLETE step connects it with the counter at 0. -/
theorem c1_connected_only_after_setup_complete_witness :
    (runApi initialApi [TransportEvent.openEvt, TransportEvent.message MsgType.textMsg,
        TransportEvent.message MsgType.audioChunk]).connected = false
    ∧ (apiStep initialApi (TransportEvent.message MsgType.setupComplete)).1.connected = true
    ∧ (apiStep initialApi (TransportEvent.message MsgType.setupComplete)).1.reconnectAttempts
        = 0 := by
  refine ⟨?_, ?_, ?_⟩
  · exact c1_connected_only_after_setup_complete.1 initialApi _ rfl (by decide)
  · exact (c1_connected_only_after_setup_complete.2 initialApi).2.2.1
  · exact (c1_connected_only_after_setup_complete.2 initialApi).2.2.2

/-- C4 counterexample: after five involuntary closures the attempt counter
has reached maxReconnectAttempts; processing a further transport closure
schedules nothing but also leaves the connection-state field untouched — it
does not transition the session to the error state, contrary to the claim. -/
theorem c4_no_error_state_on_exhaustion :
    exhaustedApi.reconnectAttempts = exhaustedApi.maxReconnectAttempts
    ∧ (apiStep exhaustedApi TransportEvent.closeEvt).1.connectionState = ConnState.connected
    ∧ (apiStep exhaustedApi TransportEvent.closeEvt).1.connectionState ≠ ConnState.error
    ∧ (apiStep exhaustedApi TransportEvent.closeEvt).2 = [ApiOutput.closeCallback] := by
  refine ⟨rfl, rfl, by decide, rfl⟩

/-- C4 (amended): on an involuntary closure (auto-reconnect enabled) with
attempt count k below maxAttempts, exactly one reconnect is scheduled, with
delay baseDelay * 2 ^ k, and the counter is incremented; once the counter has
reached maxAttempts a closure schedules no further reconnect (the close
handler does not itself move the session to an error state); an explicit
connect resets the counter; the defaults give maxAttempts 5 and the delay
sequence 1000, 2000, 4000, 8000, 16000 ms. -/
theorem c4_reconnect_backoff_policy :
    (∀ s : GeminiLiveAPI, s.autoReconnect = true →
        s.reconnectAttempts < s.maxReconnectAttempts →
        apiStep s TransportEvent.closeEvt =
          ({ s with connected := false, reconnectAttempts := s.reconnectAttempts + 1 },
           [ApiOutput.closeCallback,
            ApiOutput.scheduleReconnect (s.reconnectDelay * 2 ^ s.reconnectAttempts)]))
    ∧ (∀ s : GeminiLiveAPI, s.maxReconnectAttempts ≤ s.reconnectAttempts →
        apiStep s TransportEvent.closeEvt =
          ({ s with connected := false }, [ApiOutput.closeCallback]))
    ∧ (∀ s : GeminiLiveAPI, (apiConnect s).reconnectAttempts = 0)
    ∧ initialApi.maxReconnectAttempts = 5
    ∧ (List.range 5).map (fun k => initialApi.reconnectDelay * 2 ^ k) =
        [1000, 2000, 4000, 8000, 16000] := by
  refine ⟨?_, ?_, fun s => rfl, rfl, by decide⟩
  · intro s h1 h2
    simp [apiStep, h1, h2]
  · intro s h
    have hn : ¬ (s.autoReconnect = true ∧ s.reconnectAttempts < s.maxReconnectAttempts) := by
      rintro ⟨-, hlt⟩
      omega
    simp [apiStep, hn]

/-- Witness for C4 at concrete inputs: the first involuntary closure of the
fresh client schedules one retry after 1000 ms and bumps the counter to 1;
the exhausted client schedules nothing; connect resets its counter. -/
theorem c4_reconnect_backoff_policy_witness :
    apiStep initialApi TransportEvent.closeEvt =
      ({ initialApi with connected := false, reconnectAttempts := 1 },
       [ApiOutput.closeCallback, ApiOutput.scheduleReconnect 1000])
    ∧ apiStep exhaustedApi TransportEvent.closeEvt =
      ({ exhaustedApi with connected := false }, [ApiOutput.closeCallback])
    ∧ (apiConnect exhaustedApi).reconnectAttempts = 0 := by
  refine ⟨?_, ?_, c4_reconnect_backoff_policy.2.2.1 exhaustedApi⟩
  · simpa using c4_reconnect_backoff_policy.1 initialApi rfl (by decide)
  · exact c4_reconnect_backoff_policy.2.1 exhaustedApi (by decide)

/-- C2: on a session-closed lifecycle event the close handler consults the
live refs — never the cached isAudioStreaming and isScreenSharing flags,
which the statement leaves fully unconstrained — and, for each handle it
finds, calls stop (releasing the capture device and clearing the handle
streaming flag), drops the ref, and reports the off state to subscribers. -/
theorem c2_close_stops_live_handles :
    ∀ (s : DemoState) (h : MediaHandle),
      (s.audioStreamer = some h →
        (clientOnClose s).audioHandleAfter = some (MediaHandle.stop h)
        ∧ (MediaHandle.stop h).isStreaming = false
        ∧ (MediaHandle.stop h).deviceActive = false
        ∧ (clientOnClose s).state.audioStreamer = none
        ∧ (clientOnClose s).state.isAudioStreaming = false
        ∧ UIAction.handleStop ∈ (clientOnClose s).actions
        ∧ UIAction.audioStreamChange false ∈ (clientOnClose s).actions)
      ∧ (s.screenCapture = some h →
        (clientOnClose s).screenHandleAfter = some (MediaHandle.stop h)
        ∧ (MediaHandle.stop h).isStreaming = false
        ∧ (MediaHandle.stop h).deviceActive = false
        ∧ (clientOnClose s).state.screenCapture = none
        ∧ (clientOnClose s).state.isScreenSharing = false
        ∧ UIAction.handleStop ∈ (clientOnClose s).actions
        ∧ UIAction.screenShareChange false ∈ (clientOnClose s).actions) := by
  intro s h
  constructor
  · intro ha
    refine ⟨?_, rfl, rfl, rfl, ?_, ?_, ?_⟩ <;>
      simp [clientOnClose, ha, MediaHandle.stop]
  · intro hsc
    refine ⟨?_, rfl, rfl, rfl, ?_, ?_, ?_⟩ <;>
      simp [clientOnClose, hsc, MediaHandle.stop]

/-- Witness for C2 at a concrete stale-flag state: both cached flags read
false while both producers are live; the close handler still stops both,
releases both devices and reports both off states. -/
theorem c2_close_stops_live_handles_witness :
    staleFlagsState.isAudioStreaming = false
    ∧ staleFlagsState.isScreenSharing = false
    ∧ (clientOnClose staleFlagsState).audioHandleAfter = some (MediaHandle.stop activeHandle)
    ∧ (MediaHandle.stop activeHandle).deviceActive = false
    ∧ (clientOnClose staleFlagsState).screenHandleAfter = some (MediaHandle.stop activeHandle)
    ∧ UIAction.audioStreamChange false ∈ (clientOnClose staleFlagsState).actions
    ∧ UIAction.screenShareChange false ∈ (clientOnClose staleFlagsState).actions := by
  have ha := (c2_close_stops_live_handles staleFlagsState activeHandle).1 rfl
  have hs := (c2_close_stops_live_handles staleFlagsState activeHandle).2 rfl
  exact ⟨rfl, rfl, ha.1, ha.2.2.1, hs.1, ha.2.2.2.2.2.2, hs.2.2.2.2.2.2⟩

/-- C3 counterexample: at a connected state with both producers live, the
onErrorMessage handler leaves both handles in place and still holding their
devices, and performs no stop call at all — the error path does not run the
cleanup that the closed path runs, contrary to the claim. -/
theorem c3_error_leaves_devices_active :
    (clientOnErrorMessage staleFlagsState ("connection refused")).1.audioStreamer
        = some activeHandle
    ∧ (clientOnErrorMessage staleFlagsState ("connection refused")).1.screenCapture
        = some activeHandle
    ∧ activeHandle.deviceActive = true
    ∧ ((clientOnErrorMessage staleFlagsState ("connection refused")).2.count
        UIAction.handleStop = 0) := by
  refine ⟨rfl, rfl, rfl, by decide⟩

/-- C3 (amended): the onErrorMessage handler only alerts with the error
text, clears the connection flag and reports it; it does not stop, release
or even touch the media producer handles — capture-device cleanup happens
only in the closed-event handler. -/
theorem c3_error_message_only_clears_connection :
    ∀ (s : DemoState) (m : String),
      (clientOnErrorMessage s m).1.audioStreamer = s.audioStreamer
      ∧ (clientOnErrorMessage s m).1.screenCapture = s.screenCapture
      ∧ (clientOnErrorMessage s m).1.audioPlayer = s.audioPlayer
      ∧ (clientOnErrorMessage s m).1.isConnected = false
      ∧ (clientOnErrorMessage s m).2 =
          [UIAction.alert ("Connection Error: " ++ m), UIAction.connectionChange false]
      ∧ ((clientOnErrorMessage s m).2.count UIAction.handleStop = 0) := by
  intro s m
  refine ⟨rfl, rfl, rfl, rfl, rfl, ?_⟩
  simp [clientOnErrorMessage]

/-- C5: connect called while the client projectId is the empty string is
rejected synchronously — an alert is raised, the component state is returned
unchanged, and no transport action (no client.connect) is emitted. -/
theorem c5_connect_rejected_without_project_id :
    ∀ (s : DemoState) (c : GeminiLiveAPI),
      s.client = some c → c.projectId = "" →
      connectOp s =
        (s, [UIAction.alert
          ("Please enter your Google Cloud Project ID in the configuration dropdown")])
      ∧ UIAction.clientConnect ∉ (connectOp s).2 := by
  intro s c hc hp
  have he : c.projectId.isEmpty = true := by
    rw [hp]
    rfl
  constructor
  · simp [connectOp, hc, he]
  · simp [connectOp, hc, he]

/-- Witness for C5 at the freshly mounted demo, whose client holds the empty
projectId: the call alerts, changes nothing and opens no transport. -/
theorem c5_connect_rejected_without_project_id_witness :
    connectOp freshState =
      (freshState, [UIAction.alert
        ("Please enter your Google Cloud Project ID in the configuration dropdown")])
    ∧ UIAction.clientConnect ∉ (connectOp freshState).2 := by
  exact c5_connect_rejected_without_project_id freshState initialApi rfl rfl

/-- C6: toggling either media producer while the client does not report
connected is rejected with an alert; the state — in particular both handle
refs — is returned unchanged and no device request is made, whatever outcome
the environment would have produced. -/
theorem c6_toggle_rejected_while_disconnected :
    ∀ (s : DemoState) (o : StartOutcome),
      clientConnected s = false →
      toggleAudioOp s o = (s, [UIAction.alert ("Please connect to the API first")])
      ∧ toggleScreenOp s o = (s, [UIAction.alert ("Please connect to the API first")])
      ∧ UIAction.deviceRequest ∉ (toggleAudioOp s o).2
      ∧ UIAction.deviceRequest ∉ (toggleScreenOp s o).2 := by
  intro s o h
  refine ⟨?_, ?_, ?_, ?_⟩ <;> simp [toggleAudioOp, toggleScreenOp, h]

/-- Witness for C6 at the freshly mounted (unconnected) demo, with an
environment that would have granted the device: both toggles only alert and
leave the state unchanged. -/
theorem c6_toggle_rejected_while_disconnected_witness :
    clientConnected freshState = false
    ∧ toggleAudioOp freshState (StartOutcome.granted activeHandle) =
        (freshState, [UIAction.alert ("Please connect to the API first")])
    ∧ toggleScreenOp freshState (StartOutcome.granted activeHandle) =
        (freshState, [UIAction.alert ("Please connect to the API first")]) := by
  have h := c6_toggle_rejected_while_disconnected freshState
    (StartOutcome.granted activeHandle) rfl
  exact ⟨rfl, h.1, h.2.1⟩

/-- C7 counterexample: when the browser ends the screen track out of band,
the installed onended handler leaves the ScreenCapture object exactly as it
was — still holding its device — and performs no stop call, whereas the
explicit stop path would have released the device; the handler therefore
does not invoke the same cleanup path as stop, contrary to the claim. -/
theorem c7_onended_does_not_invoke_stop :
    (screenTrackOnEnded sharingState).screenHandleAfter = some activeHandle
    ∧ activeHandle.deviceActive = true
    ∧ ((screenTrackOnEnded sharingState).actions.count UIAction.handleStop = 0)
    ∧ (MediaHandle.stop activeHandle).deviceActive = false := by
  refine ⟨rfl, rfl, by decide, rfl⟩

/-- C7 (amended): on out-of-band revocation of the screen track the onended
handler notifies subscribers that sharing ended (sharing flag off, preview
cleared) and drops the handle ref, but — unlike the explicit stop branch of
toggleScreen, which emits a stop call on the handle — it does not invoke
stop, leaving the capture object untouched; the device teardown is left to
the track that already ended. -/
theorem c7_onended_notifies_without_stop :
    ∀ (s : DemoState) (h : MediaHandle),
      s.screenCapture = some h →
      ((screenTrackOnEnded s).state.isScreenSharing = false
        ∧ (screenTrackOnEnded s).state.screenCapture = none
        ∧ (screenTrackOnEnded s).actions =
            [UIAction.screenShareChange false, UIAction.previewStreamChange false]
        ∧ (screenTrackOnEnded s).screenHandleAfter = some h
        ∧ ((screenTrackOnEnded s).actions.count UIAction.handleStop = 0))
      ∧ (clientConnected s = true → s.isScreenSharing = true → ∀ o,
          (toggleScreenOp s o).2 =
            [UIAction.handleStop, UIAction.screenShareChange false,
             UIAction.previewStreamChange false]) := by
  intro s h hsc
  constructor
  · refine ⟨rfl, rfl, rfl, ?_, rfl⟩
    simp [screenTrackOnEnded, hsc]
  · intro hc hsh o
    simp [toggleScreenOp, hc, hsh, hsc]

/-- Witness for C7 at the concrete sharing state: the onended handler leaves
the live handle untouched and emits the two notifications, while the
explicit toggle would have emitted the stop call. -/
theorem c7_onended_notifies_without_stop_witness :
    (screenTrackOnEnded sharingState).actions =
      [UIAction.screenShareChange false, UIAction.previewStreamChange false]
    ∧ (screenTrackOnEnded sharingState).screenHandleAfter = some activeHandle
    ∧ (toggleScreenOp sharingState StartOutcome.permissionDenied).2 =
      [UIAction.handleStop, UIAction.screenShareChange false,
       UIAction.previewStreamChange false] := by
  have h := c7_onended_notifies_without_stop sharingState activeHandle rfl
  exact ⟨h.1.2.2.1, h.1.2.2.2.1, h.2 rfl rfl StartOutcome.permissionDenied⟩

/-- C8 counterexample: while the session is connected, setConfig with a
non-empty projectId forwards it to the client — the client project
identifier changes from old-project to new-project — and the only emitted
action is the setProjectId call; no rejection is reported, contrary to the
claim. -/
theorem c8_project_id_forwarded_while_connected :
    (∃ c, connectedState.client = some c ∧ c.connected = true
      ∧ c.projectId = "old-project")
    ∧ (∃ c1, (setConfigOp connectedState { projectId := some ("new-project") }).1.client
        = some c1 ∧ c1.projectId = "new-project")
    ∧ (setConfigOp connectedState { projectId := some ("new-project") }).2
        = [UIAction.setProjectIdCall ("new-project")] := by
  refine ⟨⟨{ liveClient with projectId := "old-project" }, rfl, rfl, rfl⟩,
    ⟨{ liveClient with projectId := "new-project" }, ?_, rfl⟩, ?_⟩ <;> rfl

/-- C8 (amended): setConfig never consults the connection state — whenever a
client exists and the update carries a non-empty projectId, the identifier
is forwarded to the client (whose projectId becomes the new value) and no
alert is raised; updates while connected are prevented only by the UI shell,
which disables the projectId input field while connected. -/
theorem c8_set_config_ignores_connection_state :
    ∀ (s : DemoState) (c : GeminiLiveAPI) (nc : ConfigUpdate) (p : String),
      s.client = some c → nc.projectId = some p → p ≠ "" →
      (∃ c1, (setConfigOp s nc).1.client = some c1 ∧ c1.projectId = p)
      ∧ UIAction.setProjectIdCall p ∈ (setConfigOp s nc).2
      ∧ (∀ m, UIAction.alert m ∉ (setConfigOp s nc).2) := by
  intro s c nc p hc hp hne
  have hpe : p.isEmpty = false := by
    cases hh : p.isEmpty
    · rfl
    · exact absurd ((String.isEmpty_iff p).mp hh) hne
  have ht : truthyStr (some p) = true := by
    simp [truthyStr, hpe]
  have ht0 : truthyStr nc.projectId = true := by
    rw [hp]
    exact ht
  refine ⟨⟨{ c with projectId := p }, ?_, rfl⟩, ?_, ?_⟩
  · simp [setConfigOp, hc, hp, ht]
  · simp [setConfigOp, hc, hp, ht]
  · intro m
    cases h2 : truthyStr nc.systemInstructions <;> cases h3 : truthyStr nc.voice <;>
      simp [setConfigOp, hc, ht0, h2, h3]

/-- Witness for C8 at the concrete connected state: the update carrying
new-project lands in the client and raises no alert. -/
theorem c8_set_config_ignores_connection_state_witness :
    (∃ c1, (setConfigOp connectedState { projectId := some ("new-project") }).1.client
      = some c1 ∧ c1.projectId = "new-project")
    ∧ UIAction.setProjectIdCall ("new-project")
        ∈ (setConfigOp connectedState { projectId := some ("new-project") }).2 := by
  have h := c8_set_config_ignores_connection_state connectedState
    { liveClient with projectId := "old-project" }
    { projectId := some ("new-project") } ("new-project") rfl rfl (by decide)
  exact ⟨h.1, h.2.1⟩

/-- Each lifecycle callback of the component preserves the audio player ref,
the config state and the client ref, and never emits a destroy call. -/
theorem lifeStep_preserves (s : DemoState) (e : LifeEvent) :
    (lifeStep s e).1.audioPlayer = s.audioPlayer
    ∧ (lifeStep s e).1.config = s.config
    ∧ (lifeStep s e).1.client = s.client
    ∧ ((lifeStep s e).2.count UIAction.playerDestroy = 0) := by
  cases e with
  | closedEvt =>
      refine ⟨rfl, rfl, rfl, ?_⟩
      cases hA : s.audioStreamer.isSome <;> cases hS : s.screenCapture.isSome <;>
        simp [lifeStep, clientOnClose, hA, hS]
  | errorEvt m =>
      refine ⟨rfl, rfl, rfl, ?_⟩
      simp [lifeStep, clientOnErrorMessage]

/-- The unmount cleanup emits exactly one destroy call when the player ref
is present. -/
theorem unmountCleanup_destroy_count (s : DemoState) (h : s.audioPlayer.isSome = true) :
    (unmountCleanup s).count UIAction.playerDestroy = 1 := by
  cases h1 : (s.client.map GeminiLiveAPI.connected).getD false <;>
  cases h2 : (s.audioStreamer.map MediaHandle.isStreaming).getD false <;>
  cases h3 : (s.screenCapture.map MediaHandle.isStreaming).getD false <;>
    simp [unmountCleanup, h, h1, h2, h3]

/-- C9: across any sequence of closed and errorMessage lifecycle events the
audio player ref — like the config and client refs — is untouched and no
destroy call is emitted; appending the unmount cleanup yields exactly one
destroy call, so destroy runs exactly once, on unmount, never on a
disconnect. -/
theorem c9_player_destroyed_only_on_unmount :
    ∀ (s : DemoState) (evs : List LifeEvent),
      (runLife s evs).1.audioPlayer = s.audioPlayer
      ∧ (runLife s evs).1.config = s.config
      ∧ (runLife s evs).1.client = s.client
      ∧ ((runLife s evs).2.count UIAction.playerDestroy = 0)
      ∧ (s.audioPlayer.isSome = true →
          (((runLife s evs).2 ++ unmountCleanup (runLife s evs).1).count
            UIAction.playerDestroy = 1)) := by
  intro s evs
  induction evs generalizing s with
  | nil =>
      refine ⟨rfl, rfl, rfl, rfl, ?_⟩
      intro h
      simpa [runLife] using unmountCleanup_destroy_count s h
  | cons e es ih =>
      obtain ⟨hp, hcf, hcl, hcnt, hfin⟩ := ih (lifeStep s e).1
      obtain ⟨sp, scf, scl, scnt⟩ := lifeStep_preserves s e
      refine ⟨?_, ?_, ?_, ?_, ?_⟩
      · rw [runLife]
        exact hp.trans sp
      · rw [runLife]
        exact hcf.trans scf
      · rw [runLife]
        exact hcl.trans scl
      · rw [runLife]
        simp [List.count_append, scnt, hcnt]
      · intro h
        have h1 : (lifeStep s e).1.audioPlayer.isSome = true := by
          rw [sp]
          exact h
        have h2 := hfin h1
        rw [runLife]
        simp only [List.append_assoc, List.count_append] at h2 ⊢
        omega

/-- Witness for C9 at the concrete stale-flag demo across a closed event, an
error event and another closed event followed by unmount: the player ref
survives the whole trace and exactly one destroy call is emitted in total. -/
theorem c9_player_destroyed_only_on_unmount_witness :
    (runLife staleFlagsState
        [LifeEvent.closedEvt, LifeEvent.errorEvt ("boom"), LifeEvent.closedEvt]).1.audioPlayer
      = staleFlagsState.audioPlayer
    ∧ ((runLife staleFlagsState
        [LifeEvent.closedEvt, LifeEvent.errorEvt ("boom"), LifeEvent.closedEvt]).2.count
        UIAction.playerDestroy = 0)
    ∧ (((runLife staleFlagsState
          [LifeEvent.closedEvt, LifeEvent.errorEvt ("boom"), LifeEvent.closedEvt]).2 ++
        unmountCleanup (runLife staleFlagsState
          [LifeEvent.closedEvt, LifeEvent.errorEvt ("boom"), LifeEvent.closedEvt]).1).count
        UIAction.playerDestroy = 1) := by
  have h := c9_player_destroyed_only_on_unmount staleFlagsState
    [LifeEvent.closedEvt, LifeEvent.errorEvt ("boom"), LifeEvent.closedEvt]
  exact ⟨h.1, h.2.2.2.1, h.2.2.2.2 rfl⟩

/-- C10: the spread merge keeps every field absent from the update at its
previous value in the component config state, and a field supplied with the
falsy empty string is never forwarded to the client — in particular an
update carrying the empty projectId leaves the client, and so its project
identifier, completely unchanged. -/
theorem c10_partial_config_merge_and_falsy_guard :
    ∀ (s : DemoState) (nc : ConfigUpdate) (c : GeminiLiveAPI),
      (nc.proxyUrl = none → (mergeConfig s.config nc).proxyUrl = s.config.proxyUrl)
      ∧ (nc.projectId = none → (mergeConfig s.config nc).projectId = s.config.projectId)
      ∧ (nc.model = none → (mergeConfig s.config nc).model = s.config.model)
      ∧ (nc.systemInstructions = none →
          (mergeConfig s.config nc).systemInstructions = s.config.systemInstructions)
      ∧ (nc.voice = none → (mergeConfig s.config nc).voice = s.config.voice)
      ∧ (s.client = some c → nc.projectId = some ("") →
          (setConfigOp s nc).1.client = some c
          ∧ (∀ p, UIAction.setProjectIdCall p ∉ (setConfigOp s nc).2))
      ∧ (s.client = some c → nc.systemInstructions = some ("") →
          (∀ v, UIAction.setSystemInstructionsCall v ∉ (setConfigOp s nc).2))
      ∧ (s.client = some c → nc.voice = some ("") →
          (∀ v, UIAction.setVoiceCall v ∉ (setConfigOp s nc).2)) := by
  intro s nc c
  refine ⟨fun h => by simp [mergeConfig, h], fun h => by simp [mergeConfig, h],
    fun h => by simp [mergeConfig, h], fun h => by simp [mergeConfig, h],
    fun h => by simp [mergeConfig, h], ?_, ?_, ?_⟩
  · intro hc hp
    have ht : truthyStr nc.projectId = false := by
      rw [hp]
      rfl
    constructor
    · simp [setConfigOp, hc, ht]
    · intro p
      cases h2 : truthyStr nc.systemInstructions <;> cases h3 : truthyStr nc.voice <;>
        simp [setConfigOp, hc, ht, h2, h3]
  · intro hc hp
    have ht : truthyStr nc.systemInstructions = false := by
      rw [hp]
      rfl
    intro v
    cases h1 : truthyStr nc.projectId <;> cases h3 : truthyStr nc.voice <;>
      simp [setConfigOp, hc, ht, h1, h3]
  · intro hc hp
    have ht : truthyStr nc.voice = false := by
      rw [hp]
      rfl
    intro v
    cases h1 : truthyStr nc.projectId <;> cases h2 : truthyStr nc.systemInstructions <;>
      simp [setConfigOp, hc, ht, h1, h2]

/-- Witness for C10 at the concrete connected state: an update supplying the
empty string for projectId, systemInstructions and voice forwards nothing —
the client is untouched — and an update supplying nothing keeps every config
field. -/
theorem c10_partial_config_merge_and_falsy_guard_witness :
    (setConfigOp connectedState
        { projectId := some (""), systemInstructions := some (""), voice := some ("") }).1.client
      = some { liveClient with projectId := "old-project" }
    ∧ (mergeConfig connectedState.config
        { projectId := some (""), systemInstructions := some (""), voice := some ("") }).proxyUrl
      = connectedState.config.proxyUrl
    ∧ (∀ p, UIAction.setProjectIdCall p ∉ (setConfigOp connectedState
        { projectId := some (""), systemInstructions := some (""), voice := some ("") }).2) := by
  have h := c10_partial_config_merge_and_falsy_guard connectedState
    { projectId := some (""), systemInstructions := some (""), voice := some ("") }
    { liveClient with projectId := "old-project" }
  exact ⟨(h.2.2.2.2.2.1 rfl rfl).1, h.1 rfl, (h.2.2.2.2.2.1 rfl rfl).2⟩

end GamingAssistant
